import Mathlib

/-!
Verification of the LLM call-gateway core of the TrendRadar repository.

The repository contains two copies of the orchestration logic:

* `llm_core.py` — `call_openrouter(models, messages)` iterates over an
  ordered model list; a free-tier guard (`FORCE_FREE_MODE`) skips models
  without a `":free"` substring, a day-scoped cache (`_get_cache` /
  `_set_cache`, keyed by a digest of `f"{model}|{prompt}|{today}"`) is
  consulted before any network dispatch, a `200` response is cached and
  returned, any other status sleeps one second and advances to the next
  model, and an exception advances with no sleep.  `_cleanup_cache`
  removes cache rows whose `created_date` is older than
  `today - days_to_keep`.

* `step39_news_filter.py` — `call_openrouter(model, messages)` builds a
  model list (the given model followed by the `FREE_MODELS` roster) and
  for each model runs up to `max_retries = 2` attempts: a `200` returns
  the content, a `429` sleeps `5 * (attempt + 1)` seconds and retries
  (breaking to the next model once attempts are exhausted), any other
  status returns `None` for the whole call, and an exception sleeps five
  seconds and consumes an attempt.

The embedding below models the network transport as a function supplied
by the caller that classifies each dispatch (success with extracted
content / non-200 status / raised exception), the SQLite cache table as
an association list keyed by the raw (pre-digest) key string — the MD5
digest is a deterministic function of the raw key, so two equal raw keys
always collide and two distinct raw keys are treated as distinct — and
real time only through the recorded list of requested sleep durations.
Calendar days appear as the ISO strings that the code embeds in cache
keys; for the retention sweep, which compares ISO day strings with the
SQL `<` (lexicographic order, which on valid ISO dates coincides with
day order), days are modelled as integers with integer order.
-/

/-- Classification of one network dispatch, as observed by the callers:
`success content` is an HTTP 200 whose body yielded `content`;
`failure status` is any non-200 status code; `exn` is a raised
exception (network error, timeout, or body-extraction failure). -/
inductive Outcome where
  | success (content : String)
  | failure (status : Nat)
  | exn
deriving DecidableEq

/-- Whether an outcome is the `success` classification. -/
def Outcome.isSuccess : Outcome → Bool
  | .success _ => true
  | _ => false

/-- Python truthiness of an optional string: `None` and `""` are falsy,
every nonempty string is truthy. -/
def truthy : Option String → Bool
  | none => false
  | some s => !(s == "")

/-- Whether `needle` occurs as a contiguous substring of the character
list (Python's `needle in haystack`). -/
def hasSub (needle : List Char) : List Char → Bool
  | [] => needle.isEmpty
  | c :: cs => needle.isPrefixOf (c :: cs) || hasSub needle cs

namespace LlmCore

/-- Module constant of `llm_core.py`: the free-tier firewall switch. -/
def FORCE_FREE_MODE : Bool := true

/-- Python's `":free" in model` test from the free-tier guard. -/
def containsFree (model : String) : Bool :=
  hasSub ":free".toList model.toList

/-- One row of the `llm_response_cache` table:
`(prompt_hash TEXT PRIMARY KEY, model_name TEXT, response TEXT, created_date TEXT)`.
The date column is polymorphic so that the cache operations can use the
ISO day string while the retention sweep uses the integer day order
that lexicographic comparison of ISO strings realises. -/
structure CacheEntry (Day : Type) where
  prompt_hash : String
  model_name : String
  response : String
  created_date : Day
deriving DecidableEq

/-- The raw cache key `f"{model_name}|{prompt_str}|{today}"` of
`_get_cache` / `_set_cache`; the stored key is its MD5 digest, a
deterministic function of this string. -/
def rawKey (model_name prompt_str today : String) : String :=
  model_name ++ "|" ++ prompt_str ++ "|" ++ today

/-- `_get_cache`: look up the row whose key matches
`(model_name, prompt_str, today)` and return its response column. -/
def get_cache (db : List (CacheEntry String)) (model_name prompt_str today : String) :
    Option String :=
  match db.find? (fun e => e.prompt_hash == rawKey model_name prompt_str today) with
  | some e => some e.response
  | none => none

/-- `_set_cache`: a no-op when the response is falsy (`if not response: return`),
otherwise `REPLACE INTO` the row for the computed key. -/
def set_cache (db : List (CacheEntry String)) (model_name prompt_str today response : String) :
    List (CacheEntry String) :=
  if response == "" then db
  else
    let key := rawKey model_name prompt_str today
    ⟨key, model_name, response, today⟩ :: db.filter (fun e => !(e.prompt_hash == key))

/-- `_cleanup_cache(days_to_keep)`: delete every row with
`created_date < today - days_to_keep` (the SQL `<` on ISO day strings,
modelled as integer day order). -/
def cleanup_cache (db : List (CacheEntry Int)) (today : Int) (days_to_keep : Int) :
    List (CacheEntry Int) :=
  let cutoff := today - days_to_keep
  db.filter (fun e => !(decide (e.created_date < cutoff)))

/-- Result of one `call_openrouter` invocation in `llm_core.py`: the
returned value, the cache table after the call, the models dispatched
to the network in order, and the `time.sleep` durations requested in
order. -/
structure InvokeResult where
  result : Option String
  cache : List (CacheEntry String)
  calls : List String
  sleeps : List Nat
deriving DecidableEq

/-- The `for model in models` loop of `llm_core.call_openrouter`
(lines 132–162): skip the model when the free firewall rejects it,
return a truthy cached response, otherwise dispatch; a `200` caches and
returns the content, any other status sleeps one second and advances,
an exception advances with no sleep; an exhausted list returns `None`. -/
def call_openrouter_go (forceFree : Bool) (tp : String → Outcome)
    (today prompt_str : String) :
    List String → List (CacheEntry String) → InvokeResult
  | [], db => ⟨none, db, [], []⟩
  | model :: ms, db =>
    if forceFree && !(containsFree model) then
      call_openrouter_go forceFree tp today prompt_str ms db
    else if truthy (get_cache db model prompt_str today) then
      ⟨get_cache db model prompt_str today, db, [], []⟩
    else
      match tp model with
      | .success content =>
        ⟨some content, set_cache db model prompt_str today content, [model], []⟩
      | .failure _ =>
        let r := call_openrouter_go forceFree tp today prompt_str ms db
        ⟨r.result, r.cache, model :: r.calls, 1 :: r.sleeps⟩
      | .exn =>
        let r := call_openrouter_go forceFree tp today prompt_str ms db
        ⟨r.result, r.cache, model :: r.calls, r.sleeps⟩

/-- `llm_core.call_openrouter`: `None` without any work when the API key
is absent, otherwise the model loop.  `hasKey` models the presence of
`OPENROUTER_API_KEY`; `tp` is the network transport; `today` is the
ambient calendar day; `prompt_str` is the canonicalised payload
(`json.dumps(messages, sort_keys=True)`). -/
def call_openrouter (forceFree hasKey : Bool) (tp : String → Outcome)
    (today prompt_str : String) (models : List String) (db : List (CacheEntry String)) :
    InvokeResult :=
  if hasKey then call_openrouter_go forceFree tp today prompt_str models db
  else ⟨none, db, [], []⟩

end LlmCore

namespace Step39

/-- The hard-coded free-model fallback roster of `step39_news_filter.py`. -/
def FREE_MODELS : List String :=
  ["google/gemini-2.0-flash-exp:free",
   "xiaomi/mimo-v2-flash:free",
   "tngtech/deepseek-r1t2-chimera:free",
   "nex-agi/nex-n1-deepseek-v3.1:free",
   "google/gemma-3-27b-it:free",
   "meta-llama/llama-3.3-70b-instruct:free",
   "meta-llama/llama-3.1-405b-instruct:free",
   "nvidia/nemotron-3-nano-30b-a3b:free",
   "mistralai/devstral-2-2512:free",
   "kwaipilot/kat-coder-pro:free"]

/-- Per-model attempt budget: `max_retries = 2` in the source. -/
def max_retries : Nat := 2

/-- `models_to_try = [model]` followed by each roster model not already
present. -/
def models_to_try (model : String) : List String :=
  FREE_MODELS.foldl (fun acc m => if m ∈ acc then acc else acc ++ [m]) [model]

/-- Result of one `step39.call_openrouter` invocation: the returned
value, the network dispatches as `(model, attempt)` pairs in order, and
the `time.sleep` durations requested in order. -/
structure InvokeResult where
  result : Option String
  calls : List (String × Nat)
  sleeps : List Nat
deriving DecidableEq

/-- Exit of the inner `for attempt in range(max_retries)` loop:
`terminal r` models a `return` from the whole function, `nextModel`
models falling through to the next model of the outer loop. -/
inductive ModelLoopExit where
  | terminal (r : Option String)
  | nextModel
deriving DecidableEq

/-- The `for attempt in range(max_retries)` loop of
`step39.call_openrouter` (lines 114–147), run over the remaining
attempt indices: a `200` returns the content; a `429` sleeps
`5 * (attempt + 1)` and retries while `attempt < max_retries - 1`,
breaking to the next model otherwise; any other status returns `None`
for the whole call; an exception sleeps five seconds and consumes the
attempt.  The transport takes the attempt index so retries may behave
differently. -/
def attemptLoop (tp : String → Nat → Outcome) (model : String) (maxR : Nat) :
    List Nat → ModelLoopExit × List (String × Nat) × List Nat
  | [] => (.nextModel, [], [])
  | attempt :: rest =>
    match tp model attempt with
    | .success content => (.terminal (some content), [(model, attempt)], [])
    | .failure status =>
      if status == 429 then
        if attempt < maxR - 1 then
          let w := 5 * (attempt + 1)
          let (e, cs, ws) := attemptLoop tp model maxR rest
          (e, (model, attempt) :: cs, w :: ws)
        else
          (.nextModel, [(model, attempt)], [])
      else
        (.terminal none, [(model, attempt)], [])
    | .exn =>
      let (e, cs, ws) := attemptLoop tp model maxR rest
      (e, (model, attempt) :: cs, 5 :: ws)

/-- The `for current_model in models_to_try` loop of
`step39.call_openrouter` (lines 111–150): run the attempt loop for each
model; a terminal exit returns, a fall-through advances; an exhausted
list returns `None`. -/
def tryModels (tp : String → Nat → Outcome) (maxR : Nat) :
    List String → InvokeResult
  | [] => ⟨none, [], []⟩
  | model :: ms =>
    match attemptLoop tp model maxR (List.range maxR) with
    | (.terminal r, cs, ws) => ⟨r, cs, ws⟩
    | (.nextModel, cs, ws) =>
      let rest := tryModels tp maxR ms
      ⟨rest.result, cs ++ rest.calls, ws ++ rest.sleeps⟩

/-- `step39.call_openrouter`: `None` when the API key is absent,
otherwise the model loop over `models_to_try model`. -/
def call_openrouter (hasKey : Bool) (tp : String → Nat → Outcome) (model : String) :
    InvokeResult :=
  if hasKey then tryModels tp max_retries (models_to_try model)
  else ⟨none, [], []⟩

end Step39

/-- Transport whose every dispatch succeeds with `"ok"`. -/
def tpOk : String → Outcome := fun _ => .success "ok"

/-- Transport whose every dispatch raises an exception. -/
def tpDead : String → Outcome := fun _ => .exn

/-- Transport whose every dispatch fails with HTTP status 500. -/
def tpFail500 : String → Outcome := fun _ => .failure 500

/-- Transport whose every dispatch succeeds with the empty string. -/
def tpEmpty : String → Outcome := fun _ => .success ""

/-- Transport rejecting `"A:free"` with a 401 and succeeding with `"ok"`
on every other model. -/
def tpRejectA : String → Outcome :=
  fun m => if m == "A:free" then .failure 401 else .success "ok"

/-- Attempt-indexed transport rejecting `"A"` with a 401 and succeeding
with `"ok"` on every other model. -/
def tpRejectA39 : String → Nat → Outcome :=
  fun m _ => if m == "A" then .failure 401 else .success "ok"

/-- Attempt-indexed transport rate-limiting `"A"` (HTTP 429) on every
attempt and succeeding with `"ok"` on every other model. -/
def tpRateA39 : String → Nat → Outcome :=
  fun m _ => if m == "A" then .failure 429 else .success "ok"

/-- A cache table holding the response `"R"` for the paid model
`"paid-model"` with payload `"p"` on day `"d"`. -/
def paidCacheDb : List (LlmCore.CacheEntry String) :=
  [⟨LlmCore.rawKey "paid-model" "p" "d", "paid-model", "R", "d"⟩]

/-- A cache table holding the response `"R"` for the free model
`"free-model:free"` with payload `"p"` on day `"d"`. -/
def freeCacheDb : List (LlmCore.CacheEntry String) :=
  [⟨LlmCore.rawKey "free-model:free" "p" "d", "free-model:free", "R", "d"⟩]

/-- Sweep-model entry dated eight days before day 0. -/
def entryMinus8 : LlmCore.CacheEntry Int := ⟨"k8", "m", "r", -8⟩

/-- Sweep-model entry dated seven days before day 0. -/
def entryMinus7 : LlmCore.CacheEntry Int := ⟨"k7", "m", "r", -7⟩

/-- Sweep-model entry dated six days before day 0. -/
def entryMinus6 : LlmCore.CacheEntry Int := ⟨"k6", "m", "r", -6⟩

/-- A sweep-model cache table with entries eight, seven and six days old. -/
def sweepDb : List (LlmCore.CacheEntry Int) := [entryMinus8, entryMinus7, entryMinus6]

namespace LlmCore

lemma find?_filter_of_imp {α : Type} (l : List α) (p q : α → Bool)
    (h : ∀ e, p e = true → q e = true) :
    (l.filter q).find? p = l.find? p := by
  induction l with
  | nil => rfl
  | cons a l ih =>
    by_cases hq : q a = true
    · by_cases hp : p a = true
      · simp [List.filter_cons, hq, List.find?, hp]
      · simp only [Bool.not_eq_true] at hp
        simp [List.filter_cons, hq, List.find?, hp, ih]
    · have hp : p a = false := by
        cases hpa : p a
        · rfl
        · exact absurd (h a hpa) hq
      simp only [Bool.not_eq_true] at hq
      simp [List.filter_cons, hq, List.find?, hp, ih]

lemma rawKey_eq_append (model prompt today : String) :
    rawKey model prompt today = (model ++ "|" ++ prompt ++ "|") ++ today := by
  simp [rawKey, String.append_assoc]

lemma rawKey_day_injective {model prompt d₁ d₂ : String}
    (h : rawKey model prompt d₁ = rawKey model prompt d₂) : d₁ = d₂ := by
  rw [rawKey_eq_append, rawKey_eq_append] at h
  have hd := congrArg String.data h
  rw [String.data_append, String.data_append] at hd
  exact String.ext (List.append_cancel_left hd)

lemma get_cache_set_cache_self (db : List (CacheEntry String))
    (model prompt today r : String) (hr : r ≠ "") :
    get_cache (set_cache db model prompt today r) model prompt today = some r := by
  simp [get_cache, set_cache, List.find?, hr]

lemma get_cache_set_cache_ne (db : List (CacheEntry String))
    (m₁ p₁ t₁ m₂ p₂ t₂ r : String)
    (h : rawKey m₁ p₁ t₁ ≠ rawKey m₂ p₂ t₂) :
    get_cache (set_cache db m₁ p₁ t₁ r) m₂ p₂ t₂ = get_cache db m₂ p₂ t₂ := by
  by_cases hr : (r == "") = true
  · simp [set_cache, hr]
  · simp only [set_cache, hr, Bool.false_eq_true, if_false]
    simp only [get_cache]
    rw [List.find?_cons_of_neg]
    · rw [find?_filter_of_imp]
      intro e he
      simp only [beq_iff_eq] at he
      simp only [Bool.not_eq_true']
      simp only [beq_eq_false_iff_ne, ne_eq]
      rw [he]
      exact fun hc => h hc.symm
    · simp only [beq_iff_eq]
      exact h

lemma mem_calls_go {ff : Bool} {tp : String → Outcome} {today prompt : String} :
    ∀ (ms : List String) (db : List (CacheEntry String)) (x : String),
      x ∈ (call_openrouter_go ff tp today prompt ms db).calls → x ∈ ms := by
  intro ms
  induction ms with
  | nil => intro db x h; simp [call_openrouter_go] at h
  | cons m ms ih =>
    intro db x h
    simp only [call_openrouter_go] at h
    split at h
    · exact List.mem_cons_of_mem _ (ih db x h)
    · split at h
      · simp at h
      · split at h
        · simp at h; simp [h]
        · simp at h
          rcases h with h | h
          · simp [h]
          · exact List.mem_cons_of_mem _ (ih db x h)
        · simp at h
          rcases h with h | h
          · simp [h]
          · exact List.mem_cons_of_mem _ (ih db x h)

end LlmCore

namespace LlmCore

lemma get_cache_congr (db : List (CacheEntry String)) {m₁ p₁ t₁ m₂ p₂ t₂ : String}
    (h : rawKey m₁ p₁ t₁ = rawKey m₂ p₂ t₂) :
    get_cache db m₁ p₁ t₁ = get_cache db m₂ p₂ t₂ := by
  simp [get_cache, h]

lemma call_openrouter_go_skip (ff : Bool) (tp : String → Outcome)
    (today prompt m : String) (ms : List String) (db : List (CacheEntry String))
    (h : (ff && !(containsFree m)) = true) :
    call_openrouter_go ff tp today prompt (m :: ms) db =
      call_openrouter_go ff tp today prompt ms db := by
  simp only [call_openrouter_go]
  rw [if_pos h]

end LlmCore

/-- Claim C6: after the retention sweep with `retentionDays = 7`, every
cache entry whose `createdDate` is today minus 8 days is deleted, and
every entry whose `createdDate` is today minus 7 days or newer
(in particular today minus 6 days or newer, and exactly today minus 7
days) is kept unchanged. -/
theorem retention_sweep_boundary (db : List (LlmCore.CacheEntry Int)) (today : Int)
    (e : LlmCore.CacheEntry Int) (he : e ∈ db) :
    (e.created_date = today - 8 → e ∉ LlmCore.cleanup_cache db today 7) ∧
    (today - 7 ≤ e.created_date → e ∈ LlmCore.cleanup_cache db today 7) := by
  constructor
  · intro h8 hmem
    rw [LlmCore.cleanup_cache, List.mem_filter] at hmem
    have h := hmem.2
    simp only [Bool.not_eq_true', decide_eq_false_iff_not, not_lt] at h
    omega
  · intro h7
    rw [LlmCore.cleanup_cache, List.mem_filter]
    refine ⟨he, ?_⟩
    simp only [Bool.not_eq_true', decide_eq_false_iff_not, not_lt]
    omega

/-- Closed instance of `retention_sweep_boundary` at the entry dated
eight days before day 0 in the three-entry table `sweepDb`. -/
theorem retention_sweep_boundary_witness :
    (entryMinus8.created_date = (0 : Int) - 8 →
      entryMinus8 ∉ LlmCore.cleanup_cache sweepDb 0 7) ∧
    ((0 : Int) - 7 ≤ entryMinus8.created_date →
      entryMinus8 ∈ LlmCore.cleanup_cache sweepDb 0 7) :=
  retention_sweep_boundary sweepDb 0 entryMinus8 (by decide)

/-- Claim C7: the raw cache key is a deterministic function of exactly
the triple (provider, canonicalised payload, calendar day) — it is a
pure Lean function of those three arguments, so the same triple always
yields the same key — and the same (provider, payload) pair on two
different calendar days yields two different keys; consequently a cache
write on one day is invisible to a lookup for the same pair on another
day, so a cached answer from a previous day is never returned. -/
theorem cache_key_day_scoped (m p d₁ d₂ r : String)
    (db : List (LlmCore.CacheEntry String)) (hd : d₁ ≠ d₂) :
    LlmCore.rawKey m p d₁ ≠ LlmCore.rawKey m p d₂ ∧
    LlmCore.get_cache (LlmCore.set_cache db m p d₁ r) m p d₂ =
      LlmCore.get_cache db m p d₂ := by
  have hk : LlmCore.rawKey m p d₁ ≠ LlmCore.rawKey m p d₂ :=
    fun h => hd (LlmCore.rawKey_day_injective h)
  exact ⟨hk, LlmCore.get_cache_set_cache_ne db m p d₁ m p d₂ r hk⟩

/-- Closed instance of `cache_key_day_scoped` on two consecutive ISO
days. -/
theorem cache_key_day_scoped_witness :
    LlmCore.rawKey "m" "p" "2026-10-11" ≠ LlmCore.rawKey "m" "p" "2026-10-12" ∧
    LlmCore.get_cache
        (LlmCore.set_cache [] "m" "p" "2026-10-11" "resp") "m" "p" "2026-10-12" =
      LlmCore.get_cache [] "m" "p" "2026-10-12" :=
  cache_key_day_scoped "m" "p" "2026-10-11" "2026-10-12" "resp" [] (by decide)

/-- Claim C9: the cache-key function is not injective over
(provider, payload): the raw key joins provider, payload and day with
the unescaped separator `|`, so the distinct pairs
`("a|b", "c")` and `("a", "b|c")` produce the same key on any one day,
and a cache read for one of the pairs returns the response stored for
the other. -/
theorem cache_key_separator_collision (d : String)
    (db : List (LlmCore.CacheEntry String)) :
    LlmCore.rawKey "a|b" "c" d = LlmCore.rawKey "a" "b|c" d ∧
    ("a|b", "c") ≠ (("a", "b|c") : String × String) ∧
    LlmCore.get_cache (LlmCore.set_cache db "a|b" "c" d "resp") "a" "b|c" d =
      some "resp" := by
  have hs : ("a|b" ++ "|" ++ "c" ++ "|" : String) = "a" ++ "|" ++ "b|c" ++ "|" := rfl
  have hkey : LlmCore.rawKey "a|b" "c" d = LlmCore.rawKey "a" "b|c" d := by
    rw [LlmCore.rawKey_eq_append, LlmCore.rawKey_eq_append, hs]
  refine ⟨hkey, by decide, ?_⟩
  rw [← LlmCore.get_cache_congr _ hkey]
  exact LlmCore.get_cache_set_cache_self db "a|b" "c" d "resp" (by decide)

/-- Claim C4: with free-only mode enabled, `call_openrouter` never
issues a network call for a provider identifier lacking the `":free"`
marker: for every transport, key state and cache state, the invocation
on `["paid-model", "free-model:free"]` dispatches no network call to
`"paid-model"` and its entire result (returned value, cache, dispatches
and sleeps) is exactly that of invoking `["free-model:free"]` alone. -/
theorem free_guard_never_dispatches_paid (hk : Bool) (tp : String → Outcome)
    (today prompt : String) (db : List (LlmCore.CacheEntry String)) :
    "paid-model" ∉ (LlmCore.call_openrouter true hk tp today prompt
        ["paid-model", "free-model:free"] db).calls ∧
    LlmCore.call_openrouter true hk tp today prompt
        ["paid-model", "free-model:free"] db =
      LlmCore.call_openrouter true hk tp today prompt ["free-model:free"] db := by
  have hg : (true && !(LlmCore.containsFree "paid-model")) = true := by decide
  cases hk with
  | false =>
    constructor
    · simp [LlmCore.call_openrouter]
    · simp [LlmCore.call_openrouter]
  | true =>
    have hskip := LlmCore.call_openrouter_go_skip true tp today prompt
      "paid-model" ["free-model:free"] db hg
    constructor
    · intro hmem
      simp only [LlmCore.call_openrouter, if_true] at hmem
      rw [hskip] at hmem
      have hin := LlmCore.mem_calls_go ["free-model:free"] db "paid-model" hmem
      exact absurd hin (by decide)
    · simp only [LlmCore.call_openrouter, if_true]
      exact hskip

/-- Counterexample to claim C3 as stated: the cache of `paidCacheDb`
holds a truthy response for `("paid-model", "p", day "d")`, free-only
mode is enabled, and yet `call_openrouter` on `["paid-model"]` returns
`None` rather than the cached `"R"` — the guard fires before the cache
lookup, so a cache hit for an ineligible provider is never returned. -/
theorem guard_precedes_cache_counterexample :
    truthy (LlmCore.get_cache paidCacheDb "paid-model" "p" "d") = true ∧
    (LlmCore.call_openrouter true true tpOk "d" "p" ["paid-model"] paidCacheDb).result
      = none ∧
    (LlmCore.call_openrouter true true tpOk "d" "p" ["paid-model"] paidCacheDb).result
      ≠ some "R" := by decide

/-- Claim C3 (amended): the eligibility guard is evaluated before the
cache lookup, not after it: a provider that fails the guard is skipped
wholesale — the invocation behaves exactly as if that provider were
absent from the list, so even a cached response for it is never
returned — while for a provider that passes the guard the cache is
consulted before any network attempt and a truthy cached response is
returned as is, with no dispatch and no cache change. -/
theorem guard_precedes_cache (tp : String → Outcome) (today prompt m₁ m₂ : String)
    (ms₁ ms₂ : List String) (db₁ db₂ : List (LlmCore.CacheEntry String))
    (h₁ : LlmCore.containsFree m₁ = false)
    (h₂ : (true && !(LlmCore.containsFree m₂)) = false)
    (hc : truthy (LlmCore.get_cache db₂ m₂ prompt today) = true) :
    LlmCore.call_openrouter true true tp today prompt (m₁ :: ms₁) db₁ =
      LlmCore.call_openrouter true true tp today prompt ms₁ db₁ ∧
    LlmCore.call_openrouter true true tp today prompt (m₂ :: ms₂) db₂ =
      ⟨LlmCore.get_cache db₂ m₂ prompt today, db₂, [], []⟩ := by
  constructor
  · simp only [LlmCore.call_openrouter, if_true]
    exact LlmCore.call_openrouter_go_skip true tp today prompt m₁ ms₁ db₁
      (by simp [h₁])
  · simp only [LlmCore.call_openrouter, if_true]
    simp only [LlmCore.call_openrouter_go, h₂, Bool.false_eq_true, if_false, hc,
      if_true]

/-- Closed instance of `guard_precedes_cache`: `"paid-model"` is
skipped, and a truthy cache hit for `"free-model:free"` is returned
untouched. -/
theorem guard_precedes_cache_witness :
    LlmCore.call_openrouter true true tpOk "d" "p" ["paid-model"] [] =
      LlmCore.call_openrouter true true tpOk "d" "p" [] [] ∧
    LlmCore.call_openrouter true true tpOk "d" "p" ["free-model:free"] freeCacheDb =
      ⟨LlmCore.get_cache freeCacheDb "free-model:free" "p" "d", freeCacheDb, [], []⟩ :=
  guard_precedes_cache tpOk "d" "p" "paid-model" "free-model:free" [] [] [] freeCacheDb
    (by decide) (by decide) (by decide)

namespace LlmCore

lemma exhaustion_go {ff : Bool} {tp : String → Outcome} {today prompt : String} :
    ∀ (ms : List String) (db : List (CacheEntry String)),
      (∀ m ∈ ms, (ff && !(containsFree m)) = false →
        truthy (get_cache db m prompt today) = false ∧ (tp m).isSuccess = false) →
      (call_openrouter_go ff tp today prompt ms db).result = none ∧
      (call_openrouter_go ff tp today prompt ms db).cache = db := by
  intro ms
  induction ms with
  | nil => intro db h; exact ⟨rfl, rfl⟩
  | cons m ms ih =>
    intro db h
    by_cases hg : (ff && !(containsFree m)) = true
    · rw [call_openrouter_go_skip ff tp today prompt m ms db hg]
      exact ih db (fun x hx hgx => h x (List.mem_cons_of_mem _ hx) hgx)
    · have hg' : (ff && !(containsFree m)) = false := by
        cases hb : (ff && !(containsFree m))
        · rfl
        · exact absurd hb hg
      obtain ⟨hc, hs⟩ := h m (List.mem_cons_self _ _) hg'
      simp only [call_openrouter_go, hg', Bool.false_eq_true, if_false, hc]
      cases htp : tp m with
      | success c =>
        rw [htp] at hs
        simp [Outcome.isSuccess] at hs
      | failure s =>
        simp only [htp]
        exact ih db (fun x hx hgx => h x (List.mem_cons_of_mem _ hx) hgx)
      | exn =>
        simp only [htp]
        exact ih db (fun x hx hgx => h x (List.mem_cons_of_mem _ hx) hgx)

end LlmCore

/-- Claim C8: whenever every provider in the list is either ineligible
under the guard or, if eligible, has no truthy cached response and a
transport outcome that is not a success (rejected status or raised
transport error) — and likewise when the API credential is absent —
`call_openrouter` terminates returning the explicit no-result value
`none` (the embedding is a total function, so no exception can escape)
and leaves the cache exactly as it was, performing zero cache writes. -/
theorem exhaustion_returns_no_result (ff hk : Bool) (tp : String → Outcome)
    (today prompt : String) (models : List String)
    (db : List (LlmCore.CacheEntry String))
    (h : ∀ m ∈ models, (ff && !(LlmCore.containsFree m)) = false →
      truthy (LlmCore.get_cache db m prompt today) = false ∧
      (tp m).isSuccess = false) :
    (LlmCore.call_openrouter ff hk tp today prompt models db).result = none ∧
    (LlmCore.call_openrouter ff hk tp today prompt models db).cache = db := by
  cases hk with
  | false => simp [LlmCore.call_openrouter]
  | true =>
    simp only [LlmCore.call_openrouter, if_true]
    exact LlmCore.exhaustion_go models db h

/-- Closed instance of `exhaustion_returns_no_result`: one eligible
free model whose every dispatch is rejected with a 500 yields `none`
and an unchanged (empty) cache. -/
theorem exhaustion_returns_no_result_witness :
    (LlmCore.call_openrouter true true tpFail500 "d" "p" ["a:free"] []).result
      = none ∧
    (LlmCore.call_openrouter true true tpFail500 "d" "p" ["a:free"] []).cache
      = [] :=
  exhaustion_returns_no_result true true tpFail500 "d" "p" ["a:free"] [] (by decide)

/-- Counterexample to claim C5 as stated: with the provider list
`["A:free", "B:free"]` and a transport rejecting `"A:free"` while
`"B:free"` succeeds with `"ok"`, a first invocation returns `"ok"`;
a second invocation with the same provider list and payload over the
resulting cache returns the same `"ok"`, but it does issue a network
attempt (to the still-failing `"A:free"`), so the cache does not
short-circuit before all dispatch. -/
theorem cache_idempotence_counterexample :
    (LlmCore.call_openrouter true true tpRejectA "d" "p" ["A:free", "B:free"]
      []).result = some "ok" ∧
    (LlmCore.call_openrouter true true tpRejectA "d" "p" ["A:free", "B:free"]
      (LlmCore.call_openrouter true true tpRejectA "d" "p" ["A:free", "B:free"]
        []).cache).result = some "ok" ∧
    (LlmCore.call_openrouter true true tpRejectA "d" "p" ["A:free", "B:free"]
      (LlmCore.call_openrouter true true tpRejectA "d" "p" ["A:free", "B:free"]
        []).cache).calls ≠ [] := by decide

/-- Claim C5 (amended): for a fixed provider and payload within one
calendar day, if a first `call_openrouter` on the single-provider list
`[m]` returned a nonempty response `R`, then a second invocation with
the same provider list and payload over the resulting cache returns
exactly `R` without making any network attempt, whatever the second
transport would do — the cache short-circuits before dispatch. -/
theorem cache_idempotence_single_provider (ff : Bool) (tp₁ tp₂ : String → Outcome)
    (today prompt m R : String) (db : List (LlmCore.CacheEntry String))
    (h1 : (LlmCore.call_openrouter ff true tp₁ today prompt [m] db).result = some R)
    (hR : R ≠ "") :
    (LlmCore.call_openrouter ff true tp₂ today prompt [m]
        (LlmCore.call_openrouter ff true tp₁ today prompt [m] db).cache).result
      = some R ∧
    (LlmCore.call_openrouter ff true tp₂ today prompt [m]
        (LlmCore.call_openrouter ff true tp₁ today prompt [m] db).cache).calls
      = [] := by
  simp only [LlmCore.call_openrouter, if_true] at h1 ⊢
  by_cases hg : (ff && !(LlmCore.containsFree m)) = true
  · rw [LlmCore.call_openrouter_go_skip ff tp₁ today prompt m [] db hg] at h1
    simp [LlmCore.call_openrouter_go] at h1
  · have hg' : (ff && !(LlmCore.containsFree m)) = false := by
      cases hb : (ff && !(LlmCore.containsFree m))
      · rfl
      · exact absurd hb hg
    by_cases hc : truthy (LlmCore.get_cache db m prompt today) = true
    · simp only [LlmCore.call_openrouter_go, hg', Bool.false_eq_true, if_false, hc,
        if_true] at h1 ⊢
      exact ⟨h1, trivial⟩
    · have hc' : truthy (LlmCore.get_cache db m prompt today) = false := by
        cases hb : truthy (LlmCore.get_cache db m prompt today)
        · rfl
        · exact absurd hb hc
      simp only [LlmCore.call_openrouter_go, hg', Bool.false_eq_true, if_false,
        hc'] at h1 ⊢
      cases htp : tp₁ m with
      | success c =>
        simp only [htp] at h1 ⊢
        have hcR : c = R := by simpa using h1
        subst hcR
        have hget := LlmCore.get_cache_set_cache_self db m prompt today c hR
        have htr : truthy (some c) = true := by
          simp [truthy, hR]
        simp only [hget, htr, if_true]
        exact ⟨trivial, trivial⟩
      | failure s =>
        simp only [htp] at h1
        simp [LlmCore.call_openrouter_go] at h1
      | exn =>
        simp only [htp] at h1
        simp [LlmCore.call_openrouter_go] at h1

/-- Closed instance of `cache_idempotence_single_provider`: a first
call succeeding with `"ok"` for `"m:free"`, then a second call whose
transport always raises, still returns `"ok"` with no dispatch. -/
theorem cache_idempotence_single_provider_witness :
    (LlmCore.call_openrouter true true tpDead "d" "p" ["m:free"]
        (LlmCore.call_openrouter true true tpOk "d" "p" ["m:free"] []).cache).result
      = some "ok" ∧
    (LlmCore.call_openrouter true true tpDead "d" "p" ["m:free"]
        (LlmCore.call_openrouter true true tpOk "d" "p" ["m:free"] []).cache).calls
      = [] :=
  cache_idempotence_single_provider true tpOk tpDead "d" "p" "m:free" "ok" []
    (by decide) (by decide)

/-- Claim C10: when an eligible provider's dispatch succeeds with the
empty string, `call_openrouter` returns that empty string to the
caller, yet writes nothing to the cache (`_set_cache` treats a falsy
response as absent and no-ops), so a subsequent identical invocation on
the same day dispatches a fresh network attempt to the provider — and
the empty success is indistinguishable from the no-result `None` by
Python truthiness. -/
theorem empty_success_uncached (ff : Bool) (tp₁ tp₂ : String → Outcome)
    (today prompt m : String) (db : List (LlmCore.CacheEntry String))
    (hg : (ff && !(LlmCore.containsFree m)) = false)
    (hc : truthy (LlmCore.get_cache db m prompt today) = false)
    (h1 : tp₁ m = .success "") :
    (LlmCore.call_openrouter ff true tp₁ today prompt [m] db).result = some "" ∧
    (LlmCore.call_openrouter ff true tp₁ today prompt [m] db).cache = db ∧
    truthy (LlmCore.call_openrouter ff true tp₁ today prompt [m] db).result
      = truthy none ∧
    (LlmCore.call_openrouter ff true tp₂ today prompt [m]
        (LlmCore.call_openrouter ff true tp₁ today prompt [m] db).cache).calls
      = [m] := by
  have hcall : LlmCore.call_openrouter ff true tp₁ today prompt [m] db =
      ⟨some "", db, [m], []⟩ := by
    simp only [LlmCore.call_openrouter, if_true, LlmCore.call_openrouter_go, hg,
      Bool.false_eq_true, if_false, hc, h1]
    simp [LlmCore.set_cache]
  refine ⟨by rw [hcall], by rw [hcall], by rw [hcall]; simp [truthy], ?_⟩
  rw [hcall]
  simp only [LlmCore.call_openrouter, if_true, LlmCore.call_openrouter_go, hg,
    Bool.false_eq_true, if_false, hc]
  cases htp : tp₂ m with
  | success c => simp [htp]
  | failure s => simp [htp]
  | exn => simp [htp]

/-- Closed instance of `empty_success_uncached`: an empty success for
`"m:free"` over an empty cache, followed by a second call whose
transport raises, which still dispatches to `"m:free"`. -/
theorem empty_success_uncached_witness :
    (LlmCore.call_openrouter true true tpEmpty "d" "p" ["m:free"] []).result
      = some "" ∧
    (LlmCore.call_openrouter true true tpEmpty "d" "p" ["m:free"] []).cache = [] ∧
    truthy (LlmCore.call_openrouter true true tpEmpty "d" "p" ["m:free"] []).result
      = truthy none ∧
    (LlmCore.call_openrouter true true tpDead "d" "p" ["m:free"]
        (LlmCore.call_openrouter true true tpEmpty "d" "p" ["m:free"] []).cache).calls
      = ["m:free"] :=
  empty_success_uncached true tpEmpty tpDead "d" "p" "m:free" [] (by decide)
    (by decide) (by decide)

/-- Counterexample to claim C1 as stated: under the step39 orchestrator
a provider rejected with a 401 does not lead to the next provider —
`tryModels` on `["A", "B"]` with `"A"` rejected and `"B"` succeeding
returns `None` after the single call `("A", 0)`, never reaching `"B"`
(the chain is aborted); and under the llm_core orchestrator the
rejected provider is followed by a one-second sleep before the advance,
not zero delay. -/
theorem rejected_advance_counterexample :
    (Step39.tryModels tpRejectA39 2 ["A", "B"]).result = none ∧
    (Step39.tryModels tpRejectA39 2 ["A", "B"]).calls = [("A", 0)] ∧
    (Step39.tryModels tpRejectA39 2 ["A", "B"]).result ≠ some "ok" ∧
    (LlmCore.call_openrouter true true tpRejectA "d" "p" ["A:free", "B:free"]
      []).sleeps = [1] ∧
    (LlmCore.call_openrouter true true tpRejectA "d" "p" ["A:free", "B:free"]
      []).sleeps ≠ [] := by decide

/-- Claim C1 (amended): a provider whose call returns a non-success
status is called exactly once, with no retry against that provider —
but the two orchestrators then diverge from the claimed behaviour: in
`llm_core` the orchestrator advances to the next provider only after a
one-second sleep (the result, final cache and remaining dispatches are
exactly those of invoking the rest of the list, with the rejected
provider's single call and a 1-second sleep prepended); in `step39` a
non-429 error status aborts the entire fallback chain, returning `None`
immediately after that single call with no sleep and no further
providers tried. -/
theorem rejected_single_call_behavior (ff : Bool) (tp : String → Outcome)
    (tq : String → Nat → Outcome) (today prompt m m' : String) (s s' : Nat)
    (ms ms' : List String) (db : List (LlmCore.CacheEntry String))
    (hg : (ff && !(LlmCore.containsFree m)) = false)
    (hc : truthy (LlmCore.get_cache db m prompt today) = false)
    (hf : tp m = .failure s)
    (hf' : tq m' 0 = .failure s')
    (hs' : (s' == 429) = false) :
    LlmCore.call_openrouter ff true tp today prompt (m :: ms) db =
      ⟨(LlmCore.call_openrouter ff true tp today prompt ms db).result,
       (LlmCore.call_openrouter ff true tp today prompt ms db).cache,
       m :: (LlmCore.call_openrouter ff true tp today prompt ms db).calls,
       1 :: (LlmCore.call_openrouter ff true tp today prompt ms db).sleeps⟩ ∧
    Step39.tryModels tq 2 (m' :: ms') = ⟨none, [(m', 0)], []⟩ := by
  constructor
  · simp only [LlmCore.call_openrouter, if_true, LlmCore.call_openrouter_go, hg,
      Bool.false_eq_true, if_false, hc, hf]
  · have hr2 : List.range 2 = [0, 1] := rfl
    simp [Step39.tryModels, hr2, Step39.attemptLoop, hf', hs']

/-- Closed instance of `rejected_single_call_behavior` with a 401
rejection of the first provider in both orchestrators. -/
theorem rejected_single_call_behavior_witness :
    LlmCore.call_openrouter true true tpRejectA "d" "p" ["A:free", "B:free"] [] =
      ⟨(LlmCore.call_openrouter true true tpRejectA "d" "p" ["B:free"] []).result,
       (LlmCore.call_openrouter true true tpRejectA "d" "p" ["B:free"] []).cache,
       "A:free" ::
         (LlmCore.call_openrouter true true tpRejectA "d" "p" ["B:free"] []).calls,
       1 ::
         (LlmCore.call_openrouter true true tpRejectA "d" "p" ["B:free"] []).sleeps⟩ ∧
    Step39.tryModels tpRejectA39 2 ["A", "B"] = ⟨none, [("A", 0)], []⟩ :=
  rejected_single_call_behavior true tpRejectA tpRejectA39 "d" "p" "A:free" "A"
    401 401 ["B:free"] ["B"] [] (by decide) (by decide) (by decide) (by decide)
    (by decide)

/-- Counterexample to claim C2 as stated: with `"A"` rate-limited on
every attempt and `"B"` succeeding, the step39 orchestrator with its
`max_retries = 2` issues exactly 2 network calls to `"A"`, not the 3
calls (attempts 0, 1, 2) the claim predicts. -/
theorem rate_limited_three_calls_counterexample :
    ((Step39.tryModels tpRateA39 2 ["A", "B"]).calls.filter
        (fun c => c.1 == "A")).length = 2 ∧
    ((Step39.tryModels tpRateA39 2 ["A", "B"]).calls.filter
        (fun c => c.1 == "A")).length ≠ 3 := by decide

/-- Claim C2 (amended): if provider `"A"` returns a rate-limited (429)
outcome on every attempt and provider `"B"` returns success `"ok"`,
then with the code's `max_retries = 2` the step39 orchestrator issues
exactly 2 network calls to `"A"` (attempts 0 and 1) with a single
backoff delay of `5 * (0 + 1) = 5` seconds between them, then exactly
1 call to `"B"` (attempt 0), and returns `"ok"`. -/
theorem rate_limited_fallback (tp : String → Nat → Outcome)
    (hA : ∀ a, tp "A" a = .failure 429) (hB : ∀ a, tp "B" a = .success "ok") :
    Step39.tryModels tp 2 ["A", "B"] =
      ⟨some "ok", [("A", 0), ("A", 1), ("B", 0)], [5]⟩ ∧
    ((Step39.tryModels tp 2 ["A", "B"]).calls.filter
        (fun c => c.1 == "A")).length = 2 ∧
    ((Step39.tryModels tp 2 ["A", "B"]).calls.filter
        (fun c => c.1 == "B")).length = 1 := by
  have hr2 : List.range 2 = [0, 1] := rfl
  have h1 : Step39.attemptLoop tp "A" 2 [0, 1] =
      (.nextModel, [("A", 0), ("A", 1)], [5]) := by
    simp [Step39.attemptLoop, hA]
  have h2 : Step39.attemptLoop tp "B" 2 [0, 1] =
      (.terminal (some "ok"), [("B", 0)], []) := by
    simp [Step39.attemptLoop, hB]
  have h3 : Step39.tryModels tp 2 ["A", "B"] =
      ⟨some "ok", [("A", 0), ("A", 1), ("B", 0)], [5]⟩ := by
    simp [Step39.tryModels, hr2, h1, h2]
  refine ⟨h3, ?_, ?_⟩ <;> rw [h3] <;> decide

/-- Closed instance of `rate_limited_fallback` at the concrete
transport `tpRateA39`. -/
theorem rate_limited_fallback_witness :
    Step39.tryModels tpRateA39 2 ["A", "B"] =
      ⟨some "ok", [("A", 0), ("A", 1), ("B", 0)], [5]⟩ ∧
    ((Step39.tryModels tpRateA39 2 ["A", "B"]).calls.filter
        (fun c => c.1 == "A")).length = 2 ∧
    ((Step39.tryModels tpRateA39 2 ["A", "B"]).calls.filter
        (fun c => c.1 == "B")).length = 1 :=
  rate_limited_fallback tpRateA39 (fun _ => rfl) (fun _ => rfl)
